import Mathlib

/-!
Verification of the MidHealth PatientCredential protocol core.

The development shallowly embeds the protocol pieces that exist in the
repository's sources:

- the simulated commitment hash `simulateHash` and the string encoding
  helper `strToBytes32` from `tests/contract.test.ts`;
- the key-derivation scheme used by the tests (domain tag `midhealth:pk:`
  xored with the encoded sequence and the secret key);
- the public ledger state, the verifier decision function and its ledger
  fixtures from `tests/verifier.test.ts`;
- the witness functions from `contract/src/witnesses.ts`.

The Compact contract `contract/src/PatientCredential.compact` itself is not
part of the available sources, so the three circuits (issue, prove, revoke)
are modelled from the specification, instantiated with the concrete hash
`simulateHash` that the repository's tests use to simulate them.
-/

namespace MidHealth

/-- Byte strings are lists of naturals; every byte produced by the embedded
code is below 256 and xor never leaves that range, so no modular reduction is
needed. -/
abbrev Bytes := List Nat

/-- One pass of the accumulation loop of `simulateHash` in
`tests/contract.test.ts`: `for (let i = 0; i < 32 && i < part.length; i++)
result[i] ^= part[i]`.  The recursion stops when either the 32-byte
accumulator or the current part is exhausted and keeps the remaining
accumulator bytes unchanged, exactly like the bounded loop. -/
def xorPart : List Nat → List Nat → List Nat
  | r, [] => r
  | [], _ :: _ => []
  | r :: rs, p :: ps => (r ^^^ p) :: xorPart rs ps

/-- The simulated hash of `tests/contract.test.ts`: a 32-byte accumulator,
initially all zero, xored in place with each input part in order. -/
def simulateHash (parts : List Bytes) : Bytes :=
  parts.foldl xorPart (List.replicate 32 0)

/-- UTF-8 bytes of a string; all strings appearing in the repository's tests
are ASCII, for which the codepoint equals the UTF-8 byte. -/
def strBytes (s : String) : Bytes := s.data.map Char.toNat

/-- The `strToBytes32` helper of `tests/contract.test.ts`: a 32-byte buffer,
filled from offset 0 with the first 32 encoded bytes, zero-padded. -/
def strToBytes32 (s : Bytes) : Bytes :=
  s.take 32 ++ List.replicate (32 - s.length) 0

/-- The fixed derivation domain tag of `tests/contract.test.ts`
(`const prefix = strToBytes32("midhealth:pk:")`). -/
def domainTagStr : String := "midhealth:pk:"

/-- The 32-byte encoded domain tag. -/
def domainTag : Bytes := strToBytes32 (strBytes domainTagStr)

/-- Sequence encoding used by the tests: `strToBytes32(String(sequence))`. -/
def encodeSeq (n : Nat) : Bytes := strToBytes32 (strBytes (toString n))

/-- Key derivation as performed by the tests:
`simulateHash([prefix, seqBytes, secretKey])`. -/
def derive (sk : Bytes) (seq : Nat) : Bytes :=
  simulateHash [domainTag, encodeSeq seq, sk]

/-- The credential lifecycle enum of the contract, mirrored by both test
files (`EMPTY = 0, ACTIVE = 1, REVOKED = 2`). -/
inductive CredentialState
  | EMPTY
  | ACTIVE
  | REVOKED
  deriving DecidableEq, Repr

/-- The verification-outcome enum of the contract, mirrored by both test
files (`NONE = 0, VALID = 1, INVALID = 2`). -/
inductive VerificationResult
  | NONE
  | VALID
  | INVALID
  deriving DecidableEq, Repr

/-- The single on-chain slot: the simulated ledger state of Test 3 in
`tests/contract.test.ts`, matching the spec's Slot table. -/
structure Slot where
  credentialState : CredentialState
  credentialHash : Bytes
  issuerPubKey : Bytes
  attestationCount : Nat
  lastVerification : VerificationResult
  sequence : Nat
  deriving DecidableEq, Repr

/-- Modelled from the spec: the predicate-level error taxonomy of §7 for the
three circuits of the missing Compact contract (`IllegalTransition`,
`Unauthorized`, `InvalidState`). -/
inductive ContractError
  | IllegalTransition
  | Unauthorized
  | InvalidState
  deriving DecidableEq, Repr

/-- The slot at deployment: `EMPTY`, zeroed digests, zero counter, `NONE`,
sequence 1 — the initial ledger state of Test 3 in `tests/contract.test.ts`. -/
def initialSlot : Slot :=
  { credentialState := .EMPTY
    credentialHash := List.replicate 32 0
    issuerPubKey := List.replicate 32 0
    attestationCount := 0
    lastVerification := .NONE
    sequence := 1 }

/-- Modelled from the spec: the `issueCredential` circuit of the missing
Compact contract (§4.3 Issue), with the hash instantiated by the tests'
`simulateHash`.  Precondition `state == Empty`, otherwise `IllegalTransition`;
on success the derived key and commitment are stored, the state becomes
`Active` and the counter increments by one. -/
def issueCredential (s : Slot) (issuerSk patientId payload : Bytes) :
    Except ContractError Slot :=
  if s.credentialState = .EMPTY then
    let pubKey := derive issuerSk s.sequence
    .ok { s with
          credentialState := .ACTIVE
          issuerPubKey := pubKey
          credentialHash := simulateHash [patientId, payload, pubKey]
          attestationCount := s.attestationCount + 1 }
  else
    .error .IllegalTransition

/-- Modelled from the spec: the `proveVaccinated` circuit of the missing
Compact contract (§4.3 Prove), with the hash instantiated by the tests'
`simulateHash`.  Precondition `state == Active`, otherwise `InvalidState`;
on success the commitment is recomputed from the supplied witnesses and the
stored issuer key, `lastVerification` records the comparison and the counter
increments by one. -/
def proveVaccinated (s : Slot) (patientId payload : Bytes) :
    Except ContractError Slot :=
  if s.credentialState = .ACTIVE then
    let recomputed := simulateHash [patientId, payload, s.issuerPubKey]
    .ok { s with
          lastVerification :=
            if recomputed = s.credentialHash then .VALID else .INVALID
          attestationCount := s.attestationCount + 1 }
  else
    .error .InvalidState

/-- Modelled from the spec: the `revokeCredential` circuit of the missing
Compact contract (§4.3 Revoke), with the derivation instantiated by the
tests' scheme.  Precondition `state == Active`, otherwise `IllegalTransition`;
the candidate key re-derived from the supplied secret and the slot's current
sequence must equal the stored issuer key, otherwise `Unauthorized`; on
success the state becomes `Revoked` and the counter increments by one. -/
def revokeCredential (s : Slot) (issuerSk : Bytes) :
    Except ContractError Slot :=
  if s.credentialState = .ACTIVE then
    if derive issuerSk s.sequence = s.issuerPubKey then
      .ok { s with
            credentialState := .REVOKED
            attestationCount := s.attestationCount + 1 }
    else
      .error .Unauthorized
  else
    .error .IllegalTransition

/-- Modelled from the spec: the closed operation type of §9 dispatching the
three circuits. -/
inductive Operation
  | issue (issuerSk patientId payload : Bytes)
  | prove (patientId payload : Bytes)
  | revoke (issuerSk : Bytes)

/-- Modelled from the spec: the single dispatch function
`apply(Slot, Operation) -> Result<Slot, Error>` of §9. -/
def applyOp (s : Slot) : Operation → Except ContractError Slot
  | .issue sk pid pl => issueCredential s sk pid pl
  | .prove pid pl => proveVaccinated s pid pl
  | .revoke sk => revokeCredential s sk

/-- The slot the ledger holds after an operation is submitted: the new slot
on success, the unchanged slot on a rejected operation (a rejection commits
nothing). -/
def commitOp (s : Slot) (op : Operation) : Slot :=
  match applyOp s op with
  | .ok s' => s'
  | .error _ => s

/-- Slots reachable from the deployment state by committed transitions. -/
inductive Reachable : Slot → Prop
  | init : Reachable initialSlot
  | step : ∀ {s : Slot} (op : Operation), Reachable s → Reachable (commitOp s op)

/-- The public ledger record a verifier reads, from `tests/verifier.test.ts`
(`PublicLedgerState`); the digests appear there as hex strings. -/
structure PublicLedgerState where
  credentialState : CredentialState
  credentialHash : String
  issuerPubKey : String
  attestationCount : Nat
  lastVerification : VerificationResult
  deriving DecidableEq, Repr

/-- The verifier's answer, from `tests/verifier.test.ts`
(`verifierDecision` return type). -/
structure Decision where
  accepted : Bool
  reason : String
  deriving DecidableEq, Repr

def reasonEmpty : String := "No credential has been issued at this address"

def reasonRevoked : String := "Credential has been revoked by the issuer"

def reasonValid : String := "Valid proof verified on-chain"

def reasonInvalid : String := "Proof verification failed — data mismatch"

def reasonNone : String := "No verification attempt has been made yet"

/-- The verifier's decision logic, from `tests/verifier.test.ts`
(`verifierDecision`): reject `EMPTY`, reject `REVOKED`, accept on a `VALID`
last verification, reject on `INVALID`, reject otherwise. -/
def verifierDecision (s : PublicLedgerState) : Decision :=
  if s.credentialState = .EMPTY then
    { accepted := false, reason := reasonEmpty }
  else if s.credentialState = .REVOKED then
    { accepted := false, reason := reasonRevoked }
  else if s.lastVerification = .VALID then
    { accepted := true, reason := reasonValid }
  else if s.lastVerification = .INVALID then
    { accepted := false, reason := reasonInvalid }
  else
    { accepted := false, reason := reasonNone }

/-- The four ledger-read scenarios of `tests/verifier.test.ts`
(`simulateLedgerRead` argument). -/
inductive Scenario
  | valid
  | invalid
  | empty
  | revoked
  deriving DecidableEq, Repr

def fixtureHashHex : String :=
  "a1b2c3d4e5f6789012345678abcdef01a1b2c3d4e5f6789012345678abcdef01"

def fixtureKeyHex : String :=
  "fedcba9876543210fedcba9876543210fedcba9876543210fedcba9876543210"

def zeroHex : String :=
  "0000000000000000000000000000000000000000000000000000000000000000"

/-- Simulated indexer read, from `tests/verifier.test.ts`
(`simulateLedgerRead`); the `empty` case doubles as the `default` branch. -/
def simulateLedgerRead : Scenario → PublicLedgerState
  | .valid =>
    { credentialState := .ACTIVE
      credentialHash := fixtureHashHex
      issuerPubKey := fixtureKeyHex
      attestationCount := 2
      lastVerification := .VALID }
  | .invalid =>
    { credentialState := .ACTIVE
      credentialHash := fixtureHashHex
      issuerPubKey := fixtureKeyHex
      attestationCount := 2
      lastVerification := .INVALID }
  | .revoked =>
    { credentialState := .REVOKED
      credentialHash := fixtureHashHex
      issuerPubKey := fixtureKeyHex
      attestationCount := 3
      lastVerification := .NONE }
  | .empty =>
    { credentialState := .EMPTY
      credentialHash := zeroHex
      issuerPubKey := zeroHex
      attestationCount := 0
      lastVerification := .NONE }

/-- The locally held private state, from `contract/src/witnesses.ts`
(`MidHealthPrivateState`). -/
structure MidHealthPrivateState where
  secretKey : Bytes
  patientId : Bytes
  credential : Bytes
  deriving DecidableEq, Repr

/-- The context handed to each witness, from `@midnight-ntwrk/compact-runtime`
as used by `contract/src/witnesses.ts`: the witnesses only ever destructure
its `privateState` field. -/
structure WitnessContext (L P : Type) where
  ledger : L
  privateState : P

/-- Constructor for the initial private state, from
`contract/src/witnesses.ts` (`createMidHealthPrivateState`); the TypeScript
defaults `patientId` and `credential` to 32 zero bytes, here all three fields
are passed explicitly. -/
def createMidHealthPrivateState (secretKey patientId credential : Bytes) :
    MidHealthPrivateState :=
  { secretKey := secretKey, patientId := patientId, credential := credential }

namespace witnesses

/-- The `issuerSecretKey` witness of `contract/src/witnesses.ts`: returns the
private state unchanged together with its `secretKey` field. -/
def issuerSecretKey (ctx : WitnessContext Slot MidHealthPrivateState) :
    MidHealthPrivateState × Bytes :=
  (ctx.privateState, ctx.privateState.secretKey)

/-- The `patientSecretId` witness of `contract/src/witnesses.ts`: returns the
private state unchanged together with its `patientId` field. -/
def patientSecretId (ctx : WitnessContext Slot MidHealthPrivateState) :
    MidHealthPrivateState × Bytes :=
  (ctx.privateState, ctx.privateState.patientId)

/-- The `credentialPayload` witness of `contract/src/witnesses.ts`: returns
the private state unchanged together with its `credential` field. -/
def credentialPayload (ctx : WitnessContext Slot MidHealthPrivateState) :
    MidHealthPrivateState × Bytes :=
  (ctx.privateState, ctx.privateState.credential)

end witnesses

/-! Concrete fixtures taken from the test files. -/

def skFixStr : String := "doctor-secret-001"

def pidFixStr : String := "patient-uuid-789"

def plFixStr : String := "Hepatitis-B-Vaccine"

def attackerFixStr : String := "attacker-secret-999"

def patientIdTest1Str : String := "patient-12345"

def payloadTest1Str : String := "COVID-19-Dose-2"

def issuerPubTest1Str : String := "issuer-pubkey-abc"

def skFix : Bytes := strToBytes32 (strBytes skFixStr)

def pidFix : Bytes := strToBytes32 (strBytes pidFixStr)

def plFix : Bytes := strToBytes32 (strBytes plFixStr)

def attackerFix : Bytes := strToBytes32 (strBytes attackerFixStr)

def partATest1 : Bytes := strToBytes32 (strBytes patientIdTest1Str)

def partBTest1 : Bytes := strToBytes32 (strBytes payloadTest1Str)

/-- The slot after the Test-3 issuance: issue the fixture credential into the
deployment slot. -/
def issuedSlot : Slot :=
  commitOp initialSlot (.issue skFix pidFix plFix)

def issuerPubTest1 : Bytes := strToBytes32 (strBytes issuerPubTest1Str)

/-! Algebraic facts about the xor accumulation loop. -/

theorem xorPart_nil_left (p : List Nat) : xorPart [] p = [] := by
  cases p <;> rfl

theorem xorPart_nil_right (r : List Nat) : xorPart r [] = r := by
  cases r <;> rfl

/-- Xoring the same part in twice restores the accumulator. -/
theorem xorPart_cancel : ∀ (r s : List Nat), xorPart (xorPart r s) s = r
  | r, [] => by rw [xorPart_nil_right, xorPart_nil_right]
  | [], _ :: _ => by rw [xorPart_nil_left, xorPart_nil_left]
  | r :: rs, p :: ps => by
    show ((r ^^^ p) ^^^ p) :: xorPart (xorPart rs ps) ps = r :: rs
    rw [Nat.xor_cancel_right, xorPart_cancel rs ps]

/-- Xoring a list into itself yields zeros. -/
theorem xorPart_self : ∀ (s : List Nat), xorPart s s = List.replicate s.length 0
  | [] => rfl
  | x :: xs => by
    show (x ^^^ x) :: xorPart xs xs = List.replicate (xs.length + 1) 0
    rw [Nat.xor_self, xorPart_self xs, List.replicate_succ]

/-- The accumulator can be cancelled from an equation between xor folds. -/
theorem xorPart_right_cancel {a b s : List Nat}
    (h : xorPart a s = xorPart b s) : a = b := by
  have h2 := congrArg (fun t => xorPart t s) h
  simpa [xorPart_cancel] using h2

/-- Two successive parts may be xored in in either order. -/
theorem xorPart_swap : ∀ (r p q : List Nat),
    xorPart (xorPart r p) q = xorPart (xorPart r q) p
  | r, [], q => by rw [xorPart_nil_right, xorPart_nil_right]
  | r, _ :: _, [] => by rw [xorPart_nil_right, xorPart_nil_right]
  | [], _ :: _, _ :: _ => by simp [xorPart_nil_left]
  | r :: rs, p :: ps, q :: qs => by
    show ((r ^^^ p) ^^^ q) :: xorPart (xorPart rs ps) qs
      = ((r ^^^ q) ^^^ p) :: xorPart (xorPart rs qs) ps
    rw [Nat.xor_assoc r p q, Nat.xor_assoc r q p, Nat.xor_comm p q,
      xorPart_swap rs ps qs]

theorem foldl_xorPart_perm {l1 l2 : List Bytes} (h : l1.Perm l2) :
    ∀ r : Bytes, l1.foldl xorPart r = l2.foldl xorPart r := by
  induction h with
  | nil => intro r; rfl
  | cons x _ ih => intro r; exact ih (xorPart r x)
  | swap x y l => intro r
                  show l.foldl xorPart (xorPart (xorPart r y) x)
                    = l.foldl xorPart (xorPart (xorPart r x) y)
                  rw [xorPart_swap r y x]
  | trans _ _ ih1 ih2 => intro r; rw [ih1 r, ih2 r]

/-- The simulated hash only depends on the multiset of parts: any
permutation of the inputs, in particular any swap of two parts, leaves the
digest unchanged. -/
theorem simulateHash_perm {l1 l2 : List Bytes} (h : l1.Perm l2) :
    simulateHash l1 = simulateHash l2 :=
  foldl_xorPart_perm h (List.replicate 32 0)

/-- Xoring a full-length part into the zero accumulator returns the part. -/
theorem xorPart_replicate_zero : ∀ (p : List Nat) (n : Nat), p.length = n →
    xorPart (List.replicate n 0) p = p
  | [], n, h => by subst h; rfl
  | x :: xs, n, h => by
    subst h
    show xorPart (List.replicate (xs.length + 1) 0) (x :: xs) = x :: xs
    rw [List.replicate_succ]
    show (0 ^^^ x) :: xorPart (List.replicate xs.length 0) xs = x :: xs
    rw [Nat.zero_xor, xorPart_replicate_zero xs xs.length rfl]

/-- The three-part simulated hash determines its first part once the other
two parts are fixed: full-length first parts can be recovered by xor
cancellation. -/
theorem simulateHash_first_inj {a a2 b c : Bytes}
    (ha : a.length = 32) (ha2 : a2.length = 32)
    (h : simulateHash [a, b, c] = simulateHash [a2, b, c]) : a = a2 := by
  have h1 : xorPart (xorPart (xorPart (List.replicate 32 0) a) b) c
      = xorPart (xorPart (xorPart (List.replicate 32 0) a2) b) c := h
  have h2 := xorPart_right_cancel (xorPart_right_cancel h1)
  rw [xorPart_replicate_zero a 32 ha, xorPart_replicate_zero a2 32 ha2] at h2
  exact h2

/-- The three-part simulated hash likewise determines its second part. -/
theorem simulateHash_second_inj {a b b2 c : Bytes}
    (hb : b.length = 32) (hb2 : b2.length = 32)
    (h : simulateHash [a, b, c] = simulateHash [a, b2, c]) : b = b2 := by
  have hswap : simulateHash [b, a, c] = simulateHash [b2, a, c] := by
    rw [← simulateHash_perm (List.Perm.swap a b [c]),
      ← simulateHash_perm (List.Perm.swap a b2 [c])] at h
    exact h
  exact simulateHash_first_inj hb hb2 hswap

/-- Claim C4 counterexample: swapping the two distinct leading parts of the
Test-1 commitment leaves the simulated hash unchanged, so the commitment
function of the tests is not order-sensitive. -/
theorem commit_order_counterexample :
    simulateHash [partATest1, partBTest1, issuerPubTest1]
      = simulateHash [partBTest1, partATest1, issuerPubTest1]
    ∧ partATest1 ≠ partBTest1 := by
  exact ⟨by decide, by decide⟩

/-- Claim C4 (amended): the simulated commitment hash is deterministic —
equal part sequences always yield equal digests — but it is order
insensitive: swapping two input parts (indeed, permuting the parts
arbitrarily) never changes the 32-byte output. -/
theorem commit_deterministic_order_insensitive :
    (∀ ps qs : List Bytes, ps = qs → simulateHash ps = simulateHash qs)
    ∧ (∀ ps qs : List Bytes, ps.Perm qs → simulateHash ps = simulateHash qs) := by
  constructor
  · intro ps qs h; rw [h]
  · intro ps qs h; exact simulateHash_perm h

/-- Claim C4 witness: the amended statement evaluated on the Test-1 parts. -/
theorem commit_deterministic_order_insensitive_witness :
    simulateHash [partATest1, partBTest1, issuerPubTest1]
      = simulateHash [partATest1, partBTest1, issuerPubTest1]
    ∧ simulateHash [partATest1, partBTest1, issuerPubTest1]
      = simulateHash [partBTest1, partATest1, issuerPubTest1] :=
  ⟨commit_deterministic_order_insensitive.1 _ _ rfl,
    commit_deterministic_order_insensitive.2 _ _
      (List.Perm.swap partBTest1 partATest1 [issuerPubTest1])⟩

/-- Claim C5: key derivation is by definition the commitment of the fixed
domain tag, the encoded sequence and the secret key; it is a pure function,
so repeated calls with equal inputs agree; and for the concrete sequences 1
and 2 the derived digests differ for every secret key — the
replay-protection property. -/
theorem derive_spec (sk sk2 : Bytes) (seq seq2 : Nat) :
    derive sk seq = simulateHash [domainTag, encodeSeq seq, sk]
    ∧ (sk = sk2 → seq = seq2 → derive sk seq = derive sk2 seq2)
    ∧ derive sk 1 ≠ derive sk 2 := by
  refine ⟨rfl, by intro h1 h2; rw [h1, h2], ?_⟩
  intro h
  have h1 : xorPart (xorPart (xorPart (List.replicate 32 0) domainTag)
        (encodeSeq 1)) sk
      = xorPart (xorPart (xorPart (List.replicate 32 0) domainTag)
        (encodeSeq 2)) sk := h
  have h2 := xorPart_right_cancel h1
  exact absurd h2 (by decide)

/-- Claim C5 witness: the derivation facts evaluated on the Test-2 secret
key. -/
theorem derive_spec_witness :
    derive skFix 1 = simulateHash [domainTag, encodeSeq 1, skFix]
    ∧ derive skFix 1 = derive skFix 1
    ∧ derive skFix 1 ≠ derive skFix 2 :=
  ⟨(derive_spec skFix skFix 1 1).1, (derive_spec skFix skFix 1 1).2.1 rfl rfl,
    (derive_spec skFix skFix 1 2).2.2⟩

/-! Facts about the dispatch and commit of operations. -/

theorem commitOp_ok {s s' : Slot} {op : Operation}
    (h : applyOp s op = .ok s') : commitOp s op = s' := by
  simp [commitOp, h]

theorem commitOp_error {s : Slot} {op : Operation} {e : ContractError}
    (h : applyOp s op = .error e) : commitOp s op = s := by
  simp [commitOp, h]

/-- A successful operation never leaves the slot `EMPTY`. -/
theorem applyOp_ok_state {s s' : Slot} {op : Operation}
    (h : applyOp s op = .ok s') : s'.credentialState ≠ .EMPTY := by
  cases op with
  | issue sk pid pl =>
    simp only [applyOp, issueCredential] at h
    split at h
    · injection h with h; subst h; simp
    · cases h
  | prove pid pl =>
    simp only [applyOp, proveVaccinated] at h
    split at h
    next hcond =>
      injection h with h; subst h; simp [hcond]
    next => cases h
  | revoke sk =>
    simp only [applyOp, revokeCredential] at h
    split at h
    · split at h
      · injection h with h; subst h; simp
      · cases h
    · cases h

/-- Every successful operation increments the attestation counter by exactly
one. -/
theorem applyOp_ok_count {s s' : Slot} {op : Operation}
    (h : applyOp s op = .ok s') :
    s'.attestationCount = s.attestationCount + 1 := by
  cases op with
  | issue sk pid pl =>
    simp only [applyOp, issueCredential] at h
    split at h
    · injection h with h; subst h; rfl
    · cases h
  | prove pid pl =>
    simp only [applyOp, proveVaccinated] at h
    split at h
    · injection h with h; subst h; rfl
    · cases h
  | revoke sk =>
    simp only [applyOp, revokeCredential] at h
    split at h
    · split at h
      · injection h with h; subst h; rfl
      · cases h
    · cases h

/-- Invariant: the only reachable `EMPTY` slot is the deployment slot, with
zero counter and zeroed digests. -/
theorem reachable_empty_inv {s : Slot} (hs : Reachable s) :
    s.credentialState = .EMPTY →
      s.attestationCount = 0
      ∧ s.credentialHash = List.replicate 32 0
      ∧ s.issuerPubKey = List.replicate 32 0 := by
  induction hs with
  | init => intro _; exact ⟨rfl, rfl, rfl⟩
  | @step s op hr ih =>
    intro hEmpty
    cases hap : applyOp s op with
    | ok s' =>
      rw [commitOp_ok hap] at hEmpty
      exact absurd hEmpty (applyOp_ok_state hap)
    | error e =>
      rw [commitOp_error hap] at hEmpty ⊢
      exact ih hEmpty

/-- Claim C2: Issue succeeds exactly on an `EMPTY` slot — on success the
slot becomes `ACTIVE` with the derived issuer key and the commitment of the
witnesses stored and the counter incremented by one (from 0 to 1, since
every reachable `EMPTY` slot has counter 0) — and Issue on an `ACTIVE` or
`REVOKED` slot always fails with `IllegalTransition`. -/
theorem issue_guard (s : Slot) (sk pid pl : Bytes) :
    (s.credentialState = .EMPTY →
      issueCredential s sk pid pl
        = .ok { s with credentialState := .ACTIVE,
                       issuerPubKey := derive sk s.sequence,
                       credentialHash :=
                         simulateHash [pid, pl, derive sk s.sequence],
                       attestationCount := s.attestationCount + 1 })
    ∧ (Reachable s → s.credentialState = .EMPTY → s.attestationCount = 0)
    ∧ (s.credentialState = .ACTIVE ∨ s.credentialState = .REVOKED →
        issueCredential s sk pid pl = .error .IllegalTransition) := by
  refine ⟨?_, ?_, ?_⟩
  · intro h; simp [issueCredential, h]
  · intro hr h; exact (reachable_empty_inv hr h).1
  · rintro (h | h) <;> simp [issueCredential, h]

/-- Claim C2 witness: issuing the Test-3 fixture credential into the
deployment slot, and re-issuing into the occupied slot. -/
theorem issue_guard_witness :
    issueCredential initialSlot skFix pidFix plFix
      = .ok { initialSlot with
              credentialState := .ACTIVE,
              issuerPubKey := derive skFix 1,
              credentialHash := simulateHash [pidFix, plFix, derive skFix 1],
              attestationCount := 1 }
    ∧ initialSlot.attestationCount = 0
    ∧ issueCredential issuedSlot skFix pidFix plFix
      = .error .IllegalTransition :=
  ⟨(issue_guard initialSlot skFix pidFix plFix).1 rfl,
    (issue_guard initialSlot skFix pidFix plFix).2.1 Reachable.init rfl,
    (issue_guard issuedSlot skFix pidFix plFix).2.2 (Or.inl (by decide))⟩

/-- Claim C3: on an `ACTIVE` slot, Revoke succeeds exactly when the key
derived from the supplied secret and the slot's unchanged sequence equals
the stored issuer key, transitioning the slot to `REVOKED`; a mismatched
derivation fails with `Unauthorized` and commits no change to any slot
field. -/
theorem revoke_auth (s : Slot) (sk : Bytes)
    (hA : s.credentialState = .ACTIVE) :
    (derive sk s.sequence = s.issuerPubKey →
      revokeCredential s sk
        = .ok { s with credentialState := .REVOKED,
                       attestationCount := s.attestationCount + 1 })
    ∧ (derive sk s.sequence ≠ s.issuerPubKey →
        revokeCredential s sk = .error .Unauthorized
        ∧ commitOp s (.revoke sk) = s) := by
  constructor
  · intro h; simp [revokeCredential, hA, h]
  · intro h
    have he : revokeCredential s sk = .error .Unauthorized := by
      simp [revokeCredential, hA, h]
    exact ⟨he, commitOp_error
      (show applyOp s (.revoke sk) = .error .Unauthorized from he)⟩

/-- Claim C3 witness: the original issuer revokes the Test-3 credential;
the Test-5 attacker key is rejected and commits nothing. -/
theorem revoke_auth_witness :
    revokeCredential issuedSlot skFix
      = .ok { issuedSlot with
              credentialState := .REVOKED,
              attestationCount := 2 }
    ∧ revokeCredential issuedSlot attackerFix = .error .Unauthorized
    ∧ commitOp issuedSlot (.revoke attackerFix) = issuedSlot := by
  have h1 := (revoke_auth issuedSlot skFix (by decide)).1 (by decide)
  have h2 := (revoke_auth issuedSlot attackerFix (by decide)).2 (by decide)
  exact ⟨h1, h2.1, h2.2⟩

/-- Claim C6: the attestation counter increments by exactly one on every
successful operation, a rejected operation commits no change to any slot
field, a single committed step never decreases the counter, and along every
sequence of submitted operations the counter is monotonically
non-decreasing. -/
theorem count_monotonic :
    (∀ (s s' : Slot) (op : Operation), applyOp s op = .ok s' →
      s'.attestationCount = s.attestationCount + 1)
    ∧ (∀ (s : Slot) (op : Operation) (e : ContractError),
        applyOp s op = .error e → commitOp s op = s)
    ∧ (∀ (s : Slot) (op : Operation),
        s.attestationCount ≤ (commitOp s op).attestationCount)
    ∧ (∀ (s : Slot) (ops : List Operation),
        s.attestationCount ≤ (ops.foldl commitOp s).attestationCount) := by
  have hstep : ∀ (s : Slot) (op : Operation),
      s.attestationCount ≤ (commitOp s op).attestationCount := by
    intro s op
    cases hap : applyOp s op with
    | ok s' =>
      rw [commitOp_ok hap, applyOp_ok_count hap]
      exact Nat.le_succ _
    | error e => rw [commitOp_error hap]
  refine ⟨fun s s' op h => applyOp_ok_count h,
    fun s op e h => commitOp_error h, hstep, ?_⟩
  intro s ops
  induction ops generalizing s with
  | nil => exact Nat.le_refl _
  | cons op ops ih =>
    exact Nat.le_trans (hstep s op) (ih (commitOp s op))

/-- Claim C6 witness: the counter facts evaluated on the end-to-end fixture
scenario (issue, then a rejected re-issue, then prove, then revoke). -/
theorem count_monotonic_witness :
    issuedSlot.attestationCount = initialSlot.attestationCount + 1
    ∧ commitOp issuedSlot (.issue skFix pidFix plFix) = issuedSlot
    ∧ initialSlot.attestationCount
        ≤ (commitOp initialSlot (.issue skFix pidFix plFix)).attestationCount
    ∧ initialSlot.attestationCount
        ≤ ([Operation.issue skFix pidFix plFix, .prove pidFix plFix,
            .revoke skFix].foldl commitOp initialSlot).attestationCount :=
  ⟨count_monotonic.1 initialSlot issuedSlot (.issue skFix pidFix plFix) rfl,
    count_monotonic.2.1 issuedSlot (.issue skFix pidFix plFix)
      .IllegalTransition rfl,
    count_monotonic.2.2.1 initialSlot (.issue skFix pidFix plFix),
    count_monotonic.2.2.2 initialSlot _⟩

def wrongPayloadStr : String := "WRONG-VACCINE"

def wrongFix : Bytes := strToBytes32 (strBytes wrongPayloadStr)

/-- Claim C1 (amended): on an `ACTIVE` slot holding the commitment of the
issue-time witnesses, Prove with the identical witnesses records `VALID`;
Prove with a witness pair differing in exactly one component (wrong id with
the right payload, or wrong payload with the right id) records `INVALID`;
both outcomes increment the counter; and Prove on a non-`ACTIVE` (`EMPTY`
or `REVOKED`) slot fails with `InvalidState`.  (Witness pairs differing in
both components can collide under the simulated XOR hash and record
`VALID`.) -/
theorem prove_flow (s : Slot) (pid pl pid2 pl2 : Bytes)
    (hA : s.credentialState = .ACTIVE)
    (hHash : s.credentialHash = simulateHash [pid, pl, s.issuerPubKey])
    (hpid : pid.length = 32) (hpl : pl.length = 32)
    (hpid2 : pid2.length = 32) (hpl2 : pl2.length = 32) :
    proveVaccinated s pid pl
      = .ok { s with lastVerification := .VALID,
                     attestationCount := s.attestationCount + 1 }
    ∧ (pid2 ≠ pid → proveVaccinated s pid2 pl
        = .ok { s with lastVerification := .INVALID,
                       attestationCount := s.attestationCount + 1 })
    ∧ (pl2 ≠ pl → proveVaccinated s pid pl2
        = .ok { s with lastVerification := .INVALID,
                       attestationCount := s.attestationCount + 1 })
    ∧ (∀ t : Slot, t.credentialState ≠ .ACTIVE →
        proveVaccinated t pid pl = .error .InvalidState) := by
  refine ⟨?_, ?_, ?_, ?_⟩
  · simp [proveVaccinated, hA, hHash]
  · intro hne2
    have hne : simulateHash [pid2, pl, s.issuerPubKey] ≠ s.credentialHash := by
      rw [hHash]
      intro hEq
      exact hne2 (simulateHash_first_inj hpid2 hpid hEq)
    simp [proveVaccinated, hA, hne]
  · intro hne2
    have hne : simulateHash [pid, pl2, s.issuerPubKey] ≠ s.credentialHash := by
      rw [hHash]
      intro hEq
      exact hne2 (simulateHash_second_inj hpl2 hpl hEq)
    simp [proveVaccinated, hA, hne]
  · intro t ht; simp [proveVaccinated, ht]

/-- Claim C1 witness: the Test-4 flow — correct witnesses verify, the
`WRONG-VACCINE` payload is scored `INVALID`, and Prove against the
deployment (`EMPTY`) slot is rejected with `InvalidState`. -/
theorem prove_flow_witness :
    proveVaccinated issuedSlot pidFix plFix
      = .ok { issuedSlot with
              lastVerification := .VALID,
              attestationCount := 2 }
    ∧ proveVaccinated issuedSlot pidFix wrongFix
      = .ok { issuedSlot with
              lastVerification := .INVALID,
              attestationCount := 2 }
    ∧ proveVaccinated initialSlot pidFix plFix = .error .InvalidState := by
  have h := prove_flow issuedSlot pidFix plFix partATest1 wrongFix
    (by decide) (by decide) (by decide) (by decide) (by decide) (by decide)
  exact ⟨h.1, h.2.2.1 (by decide), h.2.2.2 initialSlot (by decide)⟩

/-- Claim C1 counterexample: the issued slot is `ACTIVE` and holds the
commitment of `(pidFix, plFix)`, yet Prove with the differing witness pair
`(plFix, pidFix)` — id and payload swapped, each wrong — records `VALID`
rather than `INVALID`, because the simulated XOR hash is order
insensitive. -/
theorem prove_differing_witness_counterexample :
    issuedSlot.credentialState = .ACTIVE
    ∧ issuedSlot.credentialHash
        = simulateHash [pidFix, plFix, issuedSlot.issuerPubKey]
    ∧ plFix ≠ pidFix
    ∧ pidFix ≠ plFix
    ∧ proveVaccinated issuedSlot plFix pidFix
      = .ok { issuedSlot with
              lastVerification := .VALID,
              attestationCount := 2 } := by
  refine ⟨by decide, by decide, by decide, by decide, ?_⟩
  rfl

/-- Claim C7 (amended): every reachable `EMPTY` slot has all-zero
`commitmentHash` and `issuerPubKey`; the converse direction of the claimed
equivalence fails (see the counterexample). -/
theorem empty_zero_fields {s : Slot} (hs : Reachable s)
    (hEmpty : s.credentialState = .EMPTY) :
    s.credentialHash = List.replicate 32 0
    ∧ s.issuerPubKey = List.replicate 32 0 :=
  ⟨(reachable_empty_inv hs hEmpty).2.1, (reachable_empty_inv hs hEmpty).2.2⟩

/-- Claim C7 witness: the deployment slot. -/
theorem empty_zero_fields_witness :
    initialSlot.credentialHash = List.replicate 32 0
    ∧ initialSlot.issuerPubKey = List.replicate 32 0 :=
  empty_zero_fields Reachable.init rfl

/-- Secret key crafted to cancel the derivation tag: xoring it with the
domain tag and the encoded sequence 1 yields the all-zero key. -/
def skBad : Bytes := simulateHash [domainTag, encodeSeq 1]

/-- A reachable slot issued with the crafted secret and identical id and
payload. -/
def badSlot : Slot := commitOp initialSlot (.issue skBad pidFix pidFix)

/-- Claim C7 counterexample: a successful Issue with the crafted secret key
and equal id and payload produces a reachable `ACTIVE` slot whose
`issuerPubKey` and `commitmentHash` are both all-zero, refuting the claimed
equivalence (and in particular the non-zero-after-Issue consequence). -/
theorem issue_zero_fields_counterexample :
    Reachable badSlot
    ∧ badSlot.credentialState = .ACTIVE
    ∧ badSlot.issuerPubKey = List.replicate 32 0
    ∧ badSlot.credentialHash = List.replicate 32 0 :=
  ⟨Reachable.step (.issue skBad pidFix pidFix) Reachable.init,
    by decide, by decide, by decide⟩

/-- Claim C8: the verifier accepts exactly an `ACTIVE` slot whose last
verification is `VALID`, and each rejecting case — `EMPTY`, `REVOKED`,
`ACTIVE` with `INVALID`, `ACTIVE` with `NONE` — produces its own distinct
rejection reason. -/
theorem verifier_decision_correct (s : PublicLedgerState) :
    ((verifierDecision s).accepted = true ↔
      s.credentialState = .ACTIVE ∧ s.lastVerification = .VALID)
    ∧ (s.credentialState = .ACTIVE → s.lastVerification = .VALID →
        verifierDecision s = { accepted := true, reason := reasonValid })
    ∧ (s.credentialState = .EMPTY →
        verifierDecision s = { accepted := false, reason := reasonEmpty })
    ∧ (s.credentialState = .REVOKED →
        verifierDecision s = { accepted := false, reason := reasonRevoked })
    ∧ (s.credentialState = .ACTIVE → s.lastVerification = .INVALID →
        verifierDecision s = { accepted := false, reason := reasonInvalid })
    ∧ (s.credentialState = .ACTIVE → s.lastVerification = .NONE →
        verifierDecision s = { accepted := false, reason := reasonNone })
    ∧ List.Pairwise (· ≠ ·)
        [reasonEmpty, reasonRevoked, reasonInvalid, reasonNone] := by
  rcases s with ⟨cs, ch, ik, ac, lv⟩
  cases cs <;> cases lv <;>
    refine ⟨by simp [verifierDecision], by simp [verifierDecision],
      by simp [verifierDecision], by simp [verifierDecision],
      by simp [verifierDecision], by simp [verifierDecision], by decide⟩

/-- Claim C8 witness: the decision evaluated on the four ledger fixtures of
`tests/verifier.test.ts`. -/
theorem verifier_decision_correct_witness :
    (verifierDecision (simulateLedgerRead .valid)).accepted = true
    ∧ verifierDecision (simulateLedgerRead .valid)
        = { accepted := true, reason := reasonValid }
    ∧ verifierDecision (simulateLedgerRead .empty)
        = { accepted := false, reason := reasonEmpty }
    ∧ verifierDecision (simulateLedgerRead .revoked)
        = { accepted := false, reason := reasonRevoked }
    ∧ verifierDecision (simulateLedgerRead .invalid)
        = { accepted := false, reason := reasonInvalid } :=
  ⟨(verifier_decision_correct (simulateLedgerRead .valid)).1.mpr ⟨rfl, rfl⟩,
    (verifier_decision_correct (simulateLedgerRead .valid)).2.1 rfl rfl,
    (verifier_decision_correct (simulateLedgerRead .empty)).2.2.1 rfl,
    (verifier_decision_correct (simulateLedgerRead .revoked)).2.2.2.1 rfl,
    (verifier_decision_correct
      (simulateLedgerRead .invalid)).2.2.2.2.1 rfl rfl⟩

/-- Payload crafted to leak the patient id: choosing the credential payload
equal to the derived issuer public key makes the stored commitment equal the
raw `patientSecretId` under the simulated XOR hash. -/
def payloadLeak : Bytes := derive skFix 1

/-- Claim C9 counterexample: issuing with the crafted payload stores a
`commitmentHash` that equals the raw private `patientSecretId`, so the
persisted public fields do not avoid the private inputs for every choice of
inputs. -/
theorem no_leak_counterexample :
    (commitOp initialSlot (.issue skFix pidFix payloadLeak)).credentialState
      = .ACTIVE
    ∧ payloadLeak ≠ pidFix
    ∧ (commitOp initialSlot
        (.issue skFix pidFix payloadLeak)).credentialHash = pidFix := by
  refine ⟨by decide, by decide, by decide⟩

/-- Claim C9 (amended): the derived public key never equals the raw secret
key it was derived from (for any 32-byte secret and sequence 1), and for the
concrete private fixtures of the test suite neither persisted public field
equals any of the raw private inputs; the universal no-equality claim,
however, fails for adversarial payload choices (see the counterexample). -/
theorem no_leak_amended :
    (∀ sk : Bytes, sk.length = 32 → derive sk 1 ≠ sk)
    ∧ issuedSlot.credentialHash ≠ pidFix
    ∧ issuedSlot.credentialHash ≠ plFix
    ∧ issuedSlot.credentialHash ≠ skFix
    ∧ issuedSlot.issuerPubKey ≠ skFix
    ∧ issuedSlot.issuerPubKey ≠ pidFix
    ∧ issuedSlot.issuerPubKey ≠ plFix := by
  refine ⟨?_, by decide, by decide, by decide, by decide, by decide,
    by decide⟩
  intro sk hlen h
  have h1 : xorPart (xorPart (xorPart (List.replicate 32 0) domainTag)
      (encodeSeq 1)) sk = sk := h
  have h2 := congrArg (fun t => xorPart t sk) h1
  simp only at h2
  rw [xorPart_cancel, xorPart_self, hlen] at h2
  exact absurd h2 (by decide)

/-- Claim C9 witness: the amended facts evaluated on the fixture secret. -/
theorem no_leak_amended_witness :
    skFix.length = 32 ∧ derive skFix 1 ≠ skFix :=
  ⟨by decide, no_leak_amended.1 skFix (by decide)⟩

/-- Claim C10: each witness function returns the private state it was given
completely unchanged alongside the requested value — no witness invocation
mutates any field of the private state. -/
theorem witnesses_preserve_private_state
    (ctx : WitnessContext Slot MidHealthPrivateState) :
    witnesses.issuerSecretKey ctx
      = (ctx.privateState, ctx.privateState.secretKey)
    ∧ witnesses.patientSecretId ctx
      = (ctx.privateState, ctx.privateState.patientId)
    ∧ witnesses.credentialPayload ctx
      = (ctx.privateState, ctx.privateState.credential) :=
  ⟨rfl, rfl, rfl⟩

end MidHealth
